import Mathlib

/-!
# GLSLShaderCommon: preprocessing pipeline and child-shader attachment

A shallow embedding of `RenderSystems/GLSupport/src/GLSL/OgreGLSLShaderCommon.cpp`.

* A program object is a record; the objects live in a heap addressed by pointers, because
  `attachChildShader` stores pointers to other programs and loads them in place.
* Collaborators whose code is outside this translation unit (`parseDefines`,
  `_resolveIncludes`, `CPreprocessor::Parse`, `compile`, `isSupported`,
  `StringUtil::split`, `unloadHighLevelImpl`) are fields of `Env`.
* Every call made to the include resolver, the preprocessor engine and `compile` is
  written to a log, so that "is invoked once" and "is invoked after" are statements
  about that log.
* `uint` is a 32-bit unsigned integer: arithmetic on it is taken modulo `2 ^ 32`.
-/

namespace Ogre

/-! ## Data model -/

/-- The number of values of the C++ type `uint` (32-bit `unsigned int`). -/
def UINT_RANGE : Nat := 2 ^ 32

/-- An address of a program object. -/
abbrev Ptr := Nat

/-- The exception codes; only `ERR_RENDERINGAPI_ERROR` is raised in this file. -/
inductive ExceptionCodes where
  | ERR_RENDERINGAPI_ERROR
  | ERR_OTHER (n : Nat)
deriving DecidableEq

/-- What `OGRE_EXCEPT(code, description)` throws. -/
structure Exception where
  code : ExceptionCodes
  description : String
deriving DecidableEq

/-- How a `void` member function ends: it returns, or an exception leaves it. -/
abbrev Outcome := Except Exception Unit

/-- The members of the base classes (`Resource`, `GpuProgram`, `HighLevelGpuProgram`)
that this file reads or writes. `language` is the answer of the virtual `getLanguage()`,
`mSyntaxCode` the answer of `getSyntaxCode()`. -/
structure HighLevelGpuProgram where
  mName : String
  mFilename : String
  mLoadFromFile : Bool
  mSource : String
  mSyntaxCode : String
  language : String
  mPreprocessorDefines : String
  mHighLevelLoaded : Bool
  mAssemblerProgram : Option Nat

/-- The members of `GLSLShaderCommon`. `mAttachedGLSLPrograms` holds pointers.
`derived` stands for the state of the concrete subclass and of the driver, which only
`compile` and `unloadHighLevelImpl` write. -/
structure GLSLShaderCommon extends HighLevelGpuProgram where
  mColumnMajorMatrices : Bool
  mLinked : Int
  mShaderID : Nat
  mAttachedShaderNames : String
  mAttachedGLSLPrograms : List Ptr
  derived : Nat

/-- One `Define` call received by the preprocessor engine, with its arguments:
`Define(name, nameLen, long value)` or `Define(name, nameLen, value, valueLen)`. -/
inductive MacroDefine where
  | number (name : String) (nameLen : Nat) (value : Int)
  | text (name : String) (nameLen : Nat) (value : String) (valueLen : Nat)
deriving DecidableEq

/-- Modelled from the spec: the class `CPreprocessor` (OgreGLSLPreprocessor.h) is not
among the sources. The engine "accepts raw source, a sequence of macro definitions":
the object keeps the definitions it was given, in the order of the `Define` calls. -/
structure CPreprocessor where
  defines : List MacroDefine := []

/-- The overload `cpp.Define(name, nameLen, value)` with a `long` value. -/
def CPreprocessor.DefineValue (cpp : CPreprocessor) (name : String) (nameLen : Nat)
    (value : Int) : CPreprocessor :=
  { cpp with defines := cpp.defines ++ [MacroDefine.number name nameLen value] }

/-- The overload `cpp.Define(name, nameLen, value, valueLen)` with a text value. -/
def CPreprocessor.Define (cpp : CPreprocessor) (name : String) (nameLen : Nat)
    (value : String) (valueLen : Nat) : CPreprocessor :=
  { cpp with defines := cpp.defines ++ [MacroDefine.text name nameLen value valueLen] }

/-- The C function `strlen`: the length of a C string in bytes. -/
def strlen (s : String) : Nat := s.utf8ByteSize

/-- A call to a collaborator of the load pipeline, with the arguments it received.
`compile` also records the text `mSource` held when it was called. -/
inductive Call where
  | resolveIncludes (source : String) (filename : String)
  | Parse (defines : List MacroDefine) (src : String)
  | compile (checkErrors : Bool) (source : String)
deriving DecidableEq

/-- The collaborators whose code is not in this translation unit.
`Parse` answers `none` for a null pointer and `some out` for a buffer whose `out_size`
is the byte size of `out`. `compile` answers the new subclass state and the exception
that left it, if any. -/
structure Env where
  parseDefines : String → List (String × String)
  resolveIncludes : String → GLSLShaderCommon → String → String
  Parse : List MacroDefine → String → Option String
  compile : Bool → GLSLShaderCommon → Nat × Option Exception
  isSupported : GLSLShaderCommon → Bool
  split : String → String → Nat → List String
  unloadHighLevelImpl : GLSLShaderCommon → Nat
  parseBool : String → Bool

/-- The static `mShaderCount`, the heap of program objects, the resources known to
`HighLevelGpuProgramManager`, and the log of collaborator calls, oldest first, each
with the object that made it. -/
structure World where
  heap : Ptr → GLSLShaderCommon
  registry : List Ptr
  mShaderCount : Nat
  log : List (Ptr × Call)

/-! ## Operations on one object -/

/-- The method `GLSLShaderCommon::getResourceLogName`. -/
def getResourceLogName (self : GLSLShaderCommon) : String :=
  if self.mLoadFromFile then
    "'" ++ self.mFilename ++ "'"
  else
    "'" ++ self.mName ++ "'"

/-- The preprocessor object as `loadFromSource` has set it up when it calls `Parse`:
the predefined macro for "glsles", then one `Define` per pair of `parseDefines`. -/
def loadFromSource.cpp (env : Env) (self : GLSLShaderCommon) : CPreprocessor :=
  let cpp : CPreprocessor := {}
  let cpp := if self.language == "glsles" then cpp.DefineValue "GL_ES" 5 1 else cpp
  let defines := self.mPreprocessorDefines
  (env.parseDefines defines).foldl
    (fun c d => c.Define d.1 (strlen d.1) d.2 (strlen d.2)) cpp

/-- What a run of `loadFromSource` leaves: the object, how the call ended, and the
collaborator calls it made, in order. -/
structure LoadResult where
  obj : GLSLShaderCommon
  outcome : Outcome
  calls : List Call

/-- The method `GLSLShaderCommon::loadFromSource`, run on one object. -/
def loadFromSource (env : Env) (self : GLSLShaderCommon) : LoadResult :=
  let cpp := loadFromSource.cpp env self
  -- deal with includes
  let resolved := env.resolveIncludes self.mSource self self.mFilename
  let self1 : GLSLShaderCommon := { self with mSource := resolved }
  let c1 := [Call.resolveIncludes self.mSource self.mFilename]
  let src := self1.mSource
  let c2 := c1 ++ [Call.Parse cpp.defines src]
  match env.Parse cpp.defines src with
  | none =>
    { obj := self1
      outcome := .error ⟨.ERR_RENDERINGAPI_ERROR, "Failed to preprocess shader " ++ self1.mName⟩
      calls := c2 }
  | some out =>
    if out.utf8ByteSize = 0 then
      { obj := self1
        outcome := .error ⟨.ERR_RENDERINGAPI_ERROR, "Failed to preprocess shader " ++ self1.mName⟩
        calls := c2 }
    else
      let self2 : GLSLShaderCommon := { self1 with mSource := out }
      let r := env.compile true self2
      { obj := { self2 with derived := r.1 }
        outcome := match r.2 with
          | none => .ok ()
          | some e => .error e
        calls := c2 ++ [Call.compile true self2.mSource] }

/-- Modelled from the spec: `HighLevelGpuProgram::unloadHighLevel` is not among the
sources. It "clears high-level compiled state (delegated to an external collaborator)"
and "calling unload on an already-unloaded resource is a no-op". -/
def unloadHighLevel (env : Env) (self : GLSLShaderCommon) : GLSLShaderCommon :=
  if self.mHighLevelLoaded then
    { self with derived := env.unloadHighLevelImpl self, mHighLevelLoaded := false }
  else
    self

/-- The method `GLSLShaderCommon::unloadImpl`, run on one object. -/
def unloadImpl (env : Env) (self : GLSLShaderCommon) : GLSLShaderCommon × Outcome :=
  let self1 : GLSLShaderCommon := { self with mAssemblerProgram := none }
  (unloadHighLevel env self1, .ok ())

/-- Modelled from the spec: `setPreprocessorDefines` is defined in a header that is not
among the sources; the setter "stores the raw string (parsing deferred)". -/
def setPreprocessorDefines (self : GLSLShaderCommon) (defines : String) : GLSLShaderCommon :=
  { self with mPreprocessorDefines := defines }

/-- Modelled from the spec: `getPreprocessorDefines` is defined in a header that is not
among the sources; the getter "returns `preprocessorDefines` verbatim". -/
def getPreprocessorDefines (self : GLSLShaderCommon) : String :=
  self.mPreprocessorDefines

/-- Modelled from the spec: `setColumnMajorMatrices` is defined in a header that is not
among the sources; the setter "sets `columnMajorMatrices`". -/
def setColumnMajorMatrices (self : GLSLShaderCommon) (columnMajor : Bool) : GLSLShaderCommon :=
  { self with mColumnMajorMatrices := columnMajor }

/-- The constructor `GLSLShaderCommon::GLSLShaderCommon`: `base` is what the base-class
constructor built, `derived` the initial subclass state, `count` the value of the static
`mShaderCount`. Answers the object and the new value of the counter. -/
def GLSLShaderCommon.construct (base : HighLevelGpuProgram) (derived : Nat) (count : Nat) :
    GLSLShaderCommon × Nat :=
  let count1 := (count + 1) % UINT_RANGE
  ({ toHighLevelGpuProgram := base
     mColumnMajorMatrices := true
     mLinked := 0
     mShaderID := count1
     mAttachedShaderNames := ""
     mAttachedGLSLPrograms := []
     derived := derived }, count1)

/-! ## Operations on the heap -/

/-- The same heap with the object at `p` replaced. -/
def World.store (w : World) (p : Ptr) (o : GLSLShaderCommon) : World :=
  { w with heap := Function.update w.heap p o }

/-- Modelled from the spec: `HighLevelGpuProgramManager::getByName` is not among the
sources. It is the registry lookup "findByName(name, group) → optional
shader-resource-reference": the first registered resource that bears the name. -/
def getByName (w : World) (name : String) : Option Ptr :=
  w.registry.find? (fun q => (w.heap q).mName == name)

/-- The method `loadFromSource` called on the object at `self`. -/
def World.loadFromSource (env : Env) (self : Ptr) (w : World) : World × Outcome :=
  let r := Ogre.loadFromSource env (w.heap self)
  ({ w.store self r.obj with log := w.log ++ r.calls.map (Prod.mk self) }, r.outcome)

/-- The method `unloadImpl` called on the object at `self`. -/
def World.unloadImpl (env : Env) (self : Ptr) (w : World) : World × Outcome :=
  let r := Ogre.unloadImpl env (w.heap self)
  (w.store self r.1, r.2)

/-- Modelled from the spec: `HighLevelGpuProgram::loadHighLevel` is not among the
sources. It forces the program "through its own preprocessing pipeline (idempotent: a
child already preprocessed/compiled is not reprocessed)"; a failed attempt leaves the
"loaded/compiled flag false" and, attachment having no failure outcome, is not passed
on to the caller. -/
def loadHighLevel (env : Env) (self : Ptr) (w : World) : World :=
  if (w.heap self).mHighLevelLoaded then
    w
  else
    let r := World.loadFromSource env self w
    match r.2 with
    | .ok _ =>
      r.1.store self { r.1.heap self with mHighLevelLoaded := true }
    | .error _ => r.1

/-- The method `GLSLShaderCommon::attachChildShader` called on the object at `self`. -/
def attachChildShader (env : Env) (self : Ptr) (name : String) (w : World) :
    World × Outcome :=
  -- is the name valid and already loaded?
  match getByName w name with
  | none => (w, .ok ())
  | some hlProgram =>
    if (w.heap hlProgram).mSyntaxCode == "glsl" then
      let childShader := hlProgram
      -- load the source and attach the child shader only if supported
      if env.isSupported (w.heap self) then
        let w1 := loadHighLevel env childShader w
        let me := w1.heap self
        -- add to the container
        let me1 : GLSLShaderCommon :=
          { me with mAttachedGLSLPrograms := me.mAttachedGLSLPrograms ++ [childShader] }
        let me2 : GLSLShaderCommon :=
          { me1 with mAttachedShaderNames := me1.mAttachedShaderNames ++ (name ++ " ") }
        (w1.store self me2, .ok ())
      else
        (w, .ok ())
    else
      (w, .ok ())

/-- The loop of `CmdAttach::doSet`: `i` is the loop index and `todo` the number of
iterations left, `programNameCount - i`. An exception leaves the loop. -/
def CmdAttach.doSet.loop (env : Env) (target : Ptr) (vecShaderNames : List String) :
    Nat → Nat → World → World × Outcome
  | _, 0, w => (w, .ok ())
  | i, todo + 1, w =>
    match attachChildShader env target (vecShaderNames.getD i "") w with
    | (w1, .ok _) => CmdAttach.doSet.loop env target vecShaderNames (i + 1) todo w1
    | (w1, .error e) => (w1, .error e)

/-- The method `GLSLShaderCommon::CmdAttach::doSet`. -/
def CmdAttach.doSet (env : Env) (target : Ptr) (shaderNames : String) (w : World) :
    World × Outcome :=
  -- get all the shader program names: there could be more than one
  let vecShaderNames := env.split shaderNames " \t" 0
  let programNameCount := vecShaderNames.length
  CmdAttach.doSet.loop env target vecShaderNames 0 programNameCount w

/-- The method `GLSLShaderCommon::CmdAttach::doGet`. -/
def CmdAttach.doGet (target : Ptr) (w : World) : String :=
  (w.heap target).mAttachedShaderNames

/-- The method `GLSLShaderCommon::CmdPreprocessorDefines::doSet`. -/
def CmdPreprocessorDefines.doSet (target : Ptr) (val : String) (w : World) : World :=
  w.store target (setPreprocessorDefines (w.heap target) val)

/-- The method `GLSLShaderCommon::CmdPreprocessorDefines::doGet`. -/
def CmdPreprocessorDefines.doGet (target : Ptr) (w : World) : String :=
  getPreprocessorDefines (w.heap target)

/-- The method `GLSLShaderCommon::CmdColumnMajorMatrices::doSet`. -/
def CmdColumnMajorMatrices.doSet (env : Env) (target : Ptr) (val : String) (w : World) : World :=
  w.store target (setColumnMajorMatrices (w.heap target) (env.parseBool val))

/-- The constructor run for a new object placed at `p`. -/
def World.construct (base : HighLevelGpuProgram) (derived : Nat) (p : Ptr) (w : World) :
    World :=
  let r := GLSLShaderCommon.construct base derived w.mShaderCount
  { w.store p r.1 with mShaderCount := r.2 }

/-! ## Concrete collaborators, used to run the operations on examples -/

/-- Modelled from the spec: `StringUtil::split` is not among the sources. It "splits a
whitespace-delimited string of names": the tokens are the maximal runs of characters
that are not delimiters. `cur` is the token being read, reversed. -/
def StringUtil.splitChars (delims : List Char) : List Char → List Char → List String
  | [], cur => if cur.isEmpty then [] else [String.mk cur.reverse]
  | c :: cs, cur =>
    if delims.contains c then
      if cur.isEmpty then StringUtil.splitChars delims cs []
      else String.mk cur.reverse :: StringUtil.splitChars delims cs []
    else StringUtil.splitChars delims cs (c :: cur)

/-- Modelled from the spec: `StringUtil::split(str, delims, maxSplits)` with
`maxSplits = 0`, which sets no limit; the only call in this file passes 0. -/
def StringUtil.split (str : String) (delims : String) (_maxSplits : Nat) : List String :=
  StringUtil.splitChars delims.data str.data []

/-- A base-class part with a name and a syntax code, everything else empty. -/
def exampleBase (name syntaxCode : String) : HighLevelGpuProgram :=
  { mName := name, mFilename := "", mLoadFromFile := false, mSource := "uniform int x;"
    mSyntaxCode := syntaxCode, language := syntaxCode, mPreprocessorDefines := ""
    mHighLevelLoaded := false, mAssemblerProgram := none }

/-- An environment whose engine answers `parsed src`, whose resolver appends
`included`, and whose compile succeeds. -/
def exampleEnv (included : String) (parsed : String → Option String) : Env :=
  { parseDefines := fun _ => []
    resolveIncludes := fun src _ _ => src ++ included
    Parse := fun _ src => parsed src
    compile := fun _ o => (o.derived + 1, none)
    isSupported := fun _ => true
    split := StringUtil.split
    unloadHighLevelImpl := fun _ => 0
    parseBool := fun val => val == "true" }

/-- A heap with a fresh program "P" at 0 and the programs "A" ("glsl"), "B" ("glsl") and
"C" ("hlsl") at 1, 2 and 3, all four registered. -/
def exampleWorld : World :=
  { heap := fun p =>
      (GLSLShaderCommon.construct
        (match p with
          | 0 => exampleBase "P" "glsl"
          | 1 => exampleBase "A" "glsl"
          | 2 => exampleBase "B" "glsl"
          | _ => exampleBase "C" "hlsl") 0 p).1
    registry := [0, 1, 2, 3]
    mShaderCount := 4
    log := [] }

/-- A program loaded from the file "shader.vert" under the logical name "MyShader". -/
def fileProgram : GLSLShaderCommon :=
  (GLSLShaderCommon.construct
    { exampleBase "MyShader" "glsl" with mFilename := "shader.vert", mLoadFromFile := true }
    0 0).1

/-- An environment like `exampleEnv` whose `parseDefines` answers the pairs (A,1), (B,2). -/
def definesEnv : Env :=
  { exampleEnv "" some with parseDefines := fun _ => [("A", "1"), ("B", "2")] }

/-- An environment like `exampleEnv` whose `isSupported()` reads the state of the
program: it answers whether the syntax code is "glsl". -/
def stateReadingEnv : Env :=
  { exampleEnv "" some with isSupported := fun o => o.mSyntaxCode == "glsl" }

/-- An environment like `exampleEnv` whose engine answers its input and whose `compile`
ends with an exception. -/
def throwingEnv : Env :=
  { exampleEnv "" some with
    compile := fun _ o => (o.derived, some ⟨.ERR_OTHER 0, "compile failed"⟩) }

/-- A program of the embedded dialect, language "glsles". -/
def embeddedProgram : GLSLShaderCommon :=
  (GLSLShaderCommon.construct { exampleBase "ES" "glsl" with language := "glsles" } 0 0).1

/-- The example heap after "P" is constructed anew at 0 and "A B", then "A", are set as
its attached names. -/
def exampleRun : World :=
  (CmdAttach.doSet (exampleEnv "" some) 0 "A"
    (CmdAttach.doSet (exampleEnv "" some) 0 "A B"
      (World.construct (exampleBase "P" "glsl") 0 0 exampleWorld)).1).1

/-! ## Vocabulary of the statements -/

/-- The text that `loadFromSource` hands to the engine: `mSource` after `_resolveIncludes`. -/
def includeResolved (env : Env) (self : GLSLShaderCommon) : String :=
  env.resolveIncludes self.mSource self self.mFilename

/-- What the engine answers to the `Parse` call of `loadFromSource`. -/
def engineOutput (env : Env) (self : GLSLShaderCommon) : Option String :=
  env.Parse (loadFromSource.cpp env self).defines (includeResolved env self)

/-- The engine fails: `out` is null or `out_size` is zero. -/
def engineFails (env : Env) (self : GLSLShaderCommon) : Bool :=
  match engineOutput env self with
  | none => true
  | some out => out.utf8ByteSize == 0

/-- The macro list as the specification describes it: the predefined macro of the
embedded dialect, then the user pairs in parse order. -/
def expectedDefines (env : Env) (self : GLSLShaderCommon) : List MacroDefine :=
  (if self.language = "glsles" then [MacroDefine.number "GL_ES" 5 1] else []) ++
    (env.parseDefines self.mPreprocessorDefines).map
      (fun d => MacroDefine.text d.1 (strlen d.1) d.2 (strlen d.2))

/-- One call of an operation of this file on some object of the heap. -/
inductive Step (env : Env) : World → World → Prop where
  | attach (self : Ptr) (name : String) (w : World) :
      Step env w (Ogre.attachChildShader env self name w).1
  | attachSet (target : Ptr) (shaderNames : String) (w : World) :
      Step env w (Ogre.CmdAttach.doSet env target shaderNames w).1
  | load (self : Ptr) (w : World) : Step env w (World.loadFromSource env self w).1
  | unload (self : Ptr) (w : World) : Step env w (World.unloadImpl env self w).1
  | setDefines (target : Ptr) (val : String) (w : World) :
      Step env w (Ogre.CmdPreprocessorDefines.doSet target val w)
  | setColumnMajor (target : Ptr) (val : String) (w : World) :
      Step env w (Ogre.CmdColumnMajorMatrices.doSet env target val w)

/-- The world `w2` is reached from `w1` by a sequence of operation calls. -/
def Reachable (env : Env) (w1 w2 : World) : Prop :=
  Relation.ReflTransGen (Step env) w1 w2

/-- The identity members of `o2` are those of `o1`. -/
def Ident (o1 o2 : GLSLShaderCommon) : Prop :=
  o2.mName = o1.mName ∧ o2.mFilename = o1.mFilename ∧ o2.mLoadFromFile = o1.mLoadFromFile ∧
  o2.mSyntaxCode = o1.mSyntaxCode ∧ o2.mShaderID = o1.mShaderID

/-- The identity members and the attachment members of `o2` are those of `o1`. -/
def Kept (o1 o2 : GLSLShaderCommon) : Prop :=
  Ident o1 o2 ∧ o2.mAttachedGLSLPrograms = o1.mAttachedGLSLPrograms ∧
  o2.mAttachedShaderNames = o1.mAttachedShaderNames

/-- The registry, the counter and the identity members of every object are the same in
`w2` as in `w1`. -/
def World.SameIdentity (w1 w2 : World) : Prop :=
  w2.registry = w1.registry ∧ w2.mShaderCount = w1.mShaderCount ∧
  ∀ q, Ident (w1.heap q) (w2.heap q)

/-- The calls of `Parse` that the object at `p` made, counted in a log. -/
def parseRuns (p : Ptr) (log : List (Ptr × Call)) : Nat :=
  log.countP (fun e => e.1 == p && match e.2 with | Call.Parse _ _ => true | _ => false)

/-- The calls of `compile` that the object at `p` made, counted in a log. -/
def compileRuns (p : Ptr) (log : List (Ptr × Call)) : Nat :=
  log.countP (fun e => e.1 == p && match e.2 with | Call.compile _ _ => true | _ => false)

/-- The objects built by a sequence of constructor calls, in construction order, and the
final value of the counter; `count` is the counter before the first call. -/
def constructAll : List (HighLevelGpuProgram × Nat) → Nat → List GLSLShaderCommon × Nat
  | [], count => ([], count)
  | arg :: rest, count =>
    let r := GLSLShaderCommon.construct arg.1 arg.2 count
    let rs := constructAll rest r.2
    (r.1 :: rs.1, rs.2)

/-- The `mShaderID` values assigned by a sequence of constructor calls that starts with
the counter at 0, in construction order. -/
def assignedIds (args : List (HighLevelGpuProgram × Nat)) : List Nat :=
  (constructAll args 0).1.map (fun o => o.mShaderID)

/-- The invariant on the attachment members of the object at `p`: `mAttachedShaderNames`
is the concatenation, in order, of the name of each attached child followed by a space. -/
def NamesMatchChildren (w : World) (p : Ptr) : Prop :=
  (w.heap p).mAttachedShaderNames =
    String.join ((w.heap p).mAttachedGLSLPrograms.map (fun c => (w.heap c).mName ++ " "))

/-! ## Lemmas on `loadFromSource` -/

theorem utf8ByteSize_go_pos (c : Char) (cs : List Char) :
    0 < String.utf8ByteSize.go (c :: cs) := by
  have h := Char.utf8Size_pos c
  simp only [String.utf8ByteSize.go]
  omega

theorem utf8ByteSize_eq_zero_iff (s : String) : s.utf8ByteSize = 0 ↔ s = "" := by
  rcases s with ⟨l⟩
  cases l with
  | nil => simp [String.utf8ByteSize, String.utf8ByteSize.go]
  | cons c cs =>
    have h := utf8ByteSize_go_pos c cs
    constructor
    · intro h0
      simp only [String.utf8ByteSize] at h0
      omega
    · intro h0
      have := congrArg String.data h0
      simp at this

theorem foldl_Define_defines (l : List (String × String)) (cpp : CPreprocessor) :
    (l.foldl (fun c d => c.Define d.1 (strlen d.1) d.2 (strlen d.2)) cpp).defines =
      cpp.defines ++ l.map (fun d => MacroDefine.text d.1 (strlen d.1) d.2 (strlen d.2)) := by
  induction l generalizing cpp with
  | nil => simp
  | cons d ds ih =>
    rw [List.foldl_cons, ih]
    simp [CPreprocessor.Define]

theorem cpp_defines_eq (env : Env) (self : GLSLShaderCommon) :
    (loadFromSource.cpp env self).defines = expectedDefines env self := by
  unfold loadFromSource.cpp expectedDefines
  simp only [foldl_Define_defines]
  by_cases h : self.language = "glsles" <;> simp [h, CPreprocessor.DefineValue]

theorem loadFromSource_of_none (env : Env) (self : GLSLShaderCommon)
    (h : engineOutput env self = none) :
    loadFromSource env self =
      { obj := { self with mSource := includeResolved env self }
        outcome := .error ⟨.ERR_RENDERINGAPI_ERROR, "Failed to preprocess shader " ++ self.mName⟩
        calls := [Call.resolveIncludes self.mSource self.mFilename,
                  Call.Parse (loadFromSource.cpp env self).defines (includeResolved env self)] } := by
  unfold engineOutput includeResolved at h
  simp [loadFromSource, includeResolved, h]

theorem loadFromSource_of_empty (env : Env) (self : GLSLShaderCommon) (out : String)
    (h : engineOutput env self = some out) (h0 : out.utf8ByteSize = 0) :
    loadFromSource env self =
      { obj := { self with mSource := includeResolved env self }
        outcome := .error ⟨.ERR_RENDERINGAPI_ERROR, "Failed to preprocess shader " ++ self.mName⟩
        calls := [Call.resolveIncludes self.mSource self.mFilename,
                  Call.Parse (loadFromSource.cpp env self).defines (includeResolved env self)] } := by
  unfold engineOutput includeResolved at h
  simp [loadFromSource, includeResolved, h, h0]

theorem loadFromSource_of_some (env : Env) (self : GLSLShaderCommon) (out : String)
    (h : engineOutput env self = some out) (h0 : out.utf8ByteSize ≠ 0) :
    loadFromSource env self =
      { obj := { self with
          mSource := out
          derived := (env.compile true { self with mSource := out }).1 }
        outcome := match (env.compile true { self with mSource := out }).2 with
          | none => .ok ()
          | some e => .error e
        calls := [Call.resolveIncludes self.mSource self.mFilename,
                  Call.Parse (loadFromSource.cpp env self).defines (includeResolved env self),
                  Call.compile true out] } := by
  unfold engineOutput includeResolved at h
  simp [loadFromSource, includeResolved, h, h0]

theorem loadFromSource_of_fails (env : Env) (self : GLSLShaderCommon)
    (h : engineFails env self = true) :
    loadFromSource env self =
      { obj := { self with mSource := includeResolved env self }
        outcome := .error ⟨.ERR_RENDERINGAPI_ERROR, "Failed to preprocess shader " ++ self.mName⟩
        calls := [Call.resolveIncludes self.mSource self.mFilename,
                  Call.Parse (loadFromSource.cpp env self).defines (includeResolved env self)] } := by
  unfold engineFails at h
  cases hout : engineOutput env self with
  | none => exact loadFromSource_of_none env self hout
  | some out =>
    rw [hout] at h
    exact loadFromSource_of_empty env self out hout (by simpa using h)

theorem loadFromSource_calls (env : Env) (self : GLSLShaderCommon) :
    ∃ tail, (loadFromSource env self).calls =
        [Call.resolveIncludes self.mSource self.mFilename,
         Call.Parse (loadFromSource.cpp env self).defines (includeResolved env self)] ++ tail ∧
      ∀ c ∈ tail, ∃ out, c = Call.compile true out := by
  cases hout : engineOutput env self with
  | none => exact ⟨[], by rw [loadFromSource_of_none env self hout]; simp⟩
  | some out =>
    by_cases h0 : out.utf8ByteSize = 0
    · exact ⟨[], by rw [loadFromSource_of_empty env self out hout h0]; simp⟩
    · exact ⟨[Call.compile true out], by rw [loadFromSource_of_some env self out hout h0]; simp⟩

/-- The members that `loadFromSource` leaves as they were: all but `mSource` and the
subclass state. -/
theorem loadFromSource_frame (env : Env) (self : GLSLShaderCommon) :
    ∃ src d, (loadFromSource env self).obj = { self with mSource := src, derived := d } := by
  cases hout : engineOutput env self with
  | none => exact ⟨includeResolved env self, self.derived, by rw [loadFromSource_of_none env self hout]⟩
  | some out =>
    by_cases h0 : out.utf8ByteSize = 0
    · exact ⟨includeResolved env self, self.derived, by rw [loadFromSource_of_empty env self out hout h0]⟩
    · exact ⟨out, _, by rw [loadFromSource_of_some env self out hout h0]⟩

/-! ## The preprocessing pipeline -/

/-- C1: the macro list that `loadFromSource` hands to the engine (the argument of its
`Parse` call, the only one it makes) is `[(GL_ES, 1)]` followed by the pairs of
`parseDefines(mPreprocessorDefines)` in their order when the language is "glsles", and
exactly those pairs otherwise; so `GL_ES = 1` comes first for "glsles", and for another
language with no user pair the list is empty. -/
theorem C1_macro_list (env : Env) (self : GLSLShaderCommon) :
    (∃ src, Call.Parse (loadFromSource.cpp env self).defines src ∈ (loadFromSource env self).calls) ∧
    (∀ defs src, Call.Parse defs src ∈ (loadFromSource env self).calls →
      defs = (if self.language = "glsles" then [MacroDefine.number "GL_ES" 5 1] else []) ++
        (env.parseDefines self.mPreprocessorDefines).map
          (fun d => MacroDefine.text d.1 (strlen d.1) d.2 (strlen d.2))) ∧
    (self.language = "glsles" →
      (loadFromSource.cpp env self).defines.head? = some (MacroDefine.number "GL_ES" 5 1)) ∧
    (self.language ≠ "glsles" → env.parseDefines self.mPreprocessorDefines = [] →
      (loadFromSource.cpp env self).defines = []) := by
  obtain ⟨tail, hcalls, htail⟩ := loadFromSource_calls env self
  refine ⟨⟨includeResolved env self, ?_⟩, ?_, ?_, ?_⟩
  · rw [hcalls]; simp
  · intro defs src hmem
    rw [hcalls] at hmem
    simp only [List.cons_append, List.nil_append, List.mem_cons] at hmem
    rcases hmem with h | h | h
    · cases h
    · have h1 : defs = (loadFromSource.cpp env self).defines := by injection h
      rw [h1, cpp_defines_eq, expectedDefines]
    · obtain ⟨out, hc⟩ := htail _ h
      cases hc
  · intro hl
    rw [cpp_defines_eq, expectedDefines]
    simp [hl]
  · intro hl hd
    rw [cpp_defines_eq, expectedDefines]
    simp [hl, hd]

/-- C1, run on a "glsles" program with the user pairs (A,1), (B,2): the engine receives
GL_ES first, then A, then B. -/
theorem C1_macro_list_witness :
    embeddedProgram.language = "glsles" ∧
    (loadFromSource.cpp definesEnv embeddedProgram).defines.head?
      = some (MacroDefine.number "GL_ES" 5 1) ∧
    (∀ defs src, Call.Parse defs src ∈ (loadFromSource definesEnv embeddedProgram).calls →
      defs = [MacroDefine.number "GL_ES" 5 1, MacroDefine.text "A" 1 "1" 1,
        MacroDefine.text "B" 1 "2" 1]) ∧
    (loadFromSource.cpp (exampleEnv "" some) fileProgram).defines = [] :=
  ⟨by decide, (C1_macro_list definesEnv embeddedProgram).2.2.1 (by decide),
   (C1_macro_list definesEnv embeddedProgram).2.1,
   (C1_macro_list (exampleEnv "" some) fileProgram).2.2.2 (by decide) rfl⟩

/-- C2 as stated fails: for a program loaded from the file "shader.vert" whose engine
answers null, the message of the error is "Failed to preprocess shader MyShader"; the
display name, the quoted file name, does not occur in it. -/
theorem C2_counterexample :
    engineFails (exampleEnv "" (fun _ => none)) fileProgram = true ∧
    getResourceLogName fileProgram = "'shader.vert'" ∧
    (loadFromSource (exampleEnv "" (fun _ => none)) fileProgram).outcome =
      .error ⟨.ERR_RENDERINGAPI_ERROR, "Failed to preprocess shader MyShader"⟩ ∧
    ¬ ((getResourceLogName fileProgram).data <:+:
        ("Failed to preprocess shader MyShader" : String).data) := by
  refine ⟨by decide, by decide, rfl, by decide⟩

/-- C2, amended: when the engine answers null or zero-length output, `loadFromSource`
ends with the error `ERR_RENDERINGAPI_ERROR` whose message is "Failed to preprocess
shader " followed by the logical name `mName`, unquoted, whether or not the program
was loaded from a file. -/
theorem C2_error_carries_logical_name (env : Env) (self : GLSLShaderCommon)
    (h : engineFails env self = true) :
    (loadFromSource env self).outcome =
      .error ⟨.ERR_RENDERINGAPI_ERROR, "Failed to preprocess shader " ++ self.mName⟩ := by
  rw [loadFromSource_of_fails env self h]

/-- C2 amended, run on the program loaded from "shader.vert". -/
theorem C2_error_carries_logical_name_witness :
    (loadFromSource (exampleEnv "" (fun _ => some "")) fileProgram).outcome =
      .error ⟨.ERR_RENDERINGAPI_ERROR, "Failed to preprocess shader " ++ fileProgram.mName⟩ :=
  C2_error_carries_logical_name (exampleEnv "" (fun _ => some "")) fileProgram (by decide)

/-- C3 as stated fails: with a resolver that appends "// inc" and an engine that answers
zero-length output, `mSource` after the call is "uniform int x;// inc": neither the text
held before the call nor the engine output, but the include-resolved text. -/
theorem C3_counterexample :
    engineFails (exampleEnv "// inc" (fun _ => some "")) fileProgram = true ∧
    engineOutput (exampleEnv "// inc" (fun _ => some "")) fileProgram = some "" ∧
    fileProgram.mSource = "uniform int x;" ∧
    (loadFromSource (exampleEnv "// inc" (fun _ => some "")) fileProgram).obj.mSource
      = "uniform int x;// inc" ∧
    (loadFromSource (exampleEnv "// inc" (fun _ => some "")) fileProgram).obj.mSource
      ≠ fileProgram.mSource ∧
    (loadFromSource (exampleEnv "// inc" (fun _ => some "")) fileProgram).obj.mSource ≠ "" := by
  refine ⟨by decide, by decide, by decide, by decide, by decide, by decide⟩

/-- C3, amended: when the engine fails, `mSource` after `loadFromSource` is the
include-resolved text, what `_resolveIncludes` answered for the earlier `mSource`; it is
the earlier text exactly when the resolver answered that text unchanged. -/
theorem C3_failure_leaves_include_resolved (env : Env) (self : GLSLShaderCommon)
    (h : engineFails env self = true) :
    (loadFromSource env self).obj.mSource = env.resolveIncludes self.mSource self self.mFilename ∧
    ((loadFromSource env self).obj.mSource = self.mSource ↔
      env.resolveIncludes self.mSource self self.mFilename = self.mSource) := by
  rw [loadFromSource_of_fails env self h]
  simp [includeResolved]

/-- C3 amended, run with a resolver that appends "// inc" and an engine that answers null. -/
theorem C3_failure_leaves_include_resolved_witness :
    (loadFromSource (exampleEnv "// inc" (fun _ => none)) fileProgram).obj.mSource
      = "uniform int x;// inc" :=
  (C3_failure_leaves_include_resolved (exampleEnv "// inc" (fun _ => none)) fileProgram
    (by decide)).1

/-- C4: when the engine answers non-empty output `out`, `loadFromSource` makes exactly
three collaborator calls, in this order: `_resolveIncludes` on the earlier `mSource`,
`Parse` on the include-resolved text with the macro list, and `compile(true)` with
`mSource` already equal to `out`; `mSource` is `out` afterwards. When the engine fails,
no `compile` call is made. -/
theorem C4_pipeline_order (env : Env) (self : GLSLShaderCommon) :
    (∀ out, env.Parse (loadFromSource.cpp env self).defines
        (env.resolveIncludes self.mSource self self.mFilename) = some out → out ≠ "" →
      (loadFromSource env self).obj.mSource = out ∧
      (loadFromSource env self).calls =
        [Call.resolveIncludes self.mSource self.mFilename,
         Call.Parse (loadFromSource.cpp env self).defines
           (env.resolveIncludes self.mSource self self.mFilename),
         Call.compile true out]) ∧
    (engineFails env self = true →
      ∀ flag src, Call.compile flag src ∉ (loadFromSource env self).calls) := by
  constructor
  · intro out hout hne
    have h0 : out.utf8ByteSize ≠ 0 := fun h => hne ((utf8ByteSize_eq_zero_iff out).1 h)
    rw [loadFromSource_of_some env self out hout h0]
    simp [includeResolved]
  · intro h flag src
    rw [loadFromSource_of_fails env self h]
    simp

/-- C4, run on the example program: with an engine that answers its input the calls are
resolve, parse, compile(true); with an engine that answers null there is no compile. -/
theorem C4_pipeline_order_witness :
    (loadFromSource (exampleEnv "// inc" some) fileProgram).obj.mSource = "uniform int x;// inc" ∧
    (loadFromSource (exampleEnv "// inc" some) fileProgram).calls =
      [Call.resolveIncludes "uniform int x;" "shader.vert",
       Call.Parse [] "uniform int x;// inc",
       Call.compile true "uniform int x;// inc"] ∧
    (∀ flag src, Call.compile flag src ∉
      (loadFromSource (exampleEnv "// inc" (fun _ => none)) fileProgram).calls) :=
  ⟨((C4_pipeline_order (exampleEnv "// inc" some) fileProgram).1 "uniform int x;// inc"
      (by decide) (by decide)).1,
   ((C4_pipeline_order (exampleEnv "// inc" some) fileProgram).1 "uniform int x;// inc"
      (by decide) (by decide)).2,
   (C4_pipeline_order (exampleEnv "// inc" (fun _ => none)) fileProgram).2 (by decide)⟩

/-! ## Lemmas on the heap operations -/

theorem ident_refl (o : GLSLShaderCommon) : Ident o o := ⟨rfl, rfl, rfl, rfl, rfl⟩

theorem ident_trans {o1 o2 o3 : GLSLShaderCommon} (h1 : Ident o1 o2) (h2 : Ident o2 o3) :
    Ident o1 o3 := by
  obtain ⟨a1, a2, a3, a4, a5⟩ := h1
  obtain ⟨b1, b2, b3, b4, b5⟩ := h2
  exact ⟨b1.trans a1, b2.trans a2, b3.trans a3, b4.trans a4, b5.trans a5⟩

theorem kept_refl (o : GLSLShaderCommon) : Kept o o := ⟨ident_refl o, rfl, rfl⟩

theorem kept_trans {o1 o2 o3 : GLSLShaderCommon} (h1 : Kept o1 o2) (h2 : Kept o2 o3) :
    Kept o1 o3 :=
  ⟨ident_trans h1.1 h2.1, h2.2.1.trans h1.2.1, h2.2.2.trans h1.2.2⟩

theorem sameIdentity_refl (w : World) : w.SameIdentity w :=
  ⟨rfl, rfl, fun _ => ident_refl _⟩

theorem sameIdentity_trans {w1 w2 w3 : World} (h1 : w1.SameIdentity w2)
    (h2 : w2.SameIdentity w3) : w1.SameIdentity w3 :=
  ⟨h2.1.trans h1.1, h2.2.1.trans h1.2.1, fun q => ident_trans (h1.2.2 q) (h2.2.2 q)⟩

theorem world_store_heap (w : World) (p q : Ptr) (o : GLSLShaderCommon) :
    (w.store p o).heap q = if q = p then o else w.heap q := by
  simp [World.store, Function.update_apply]

theorem loadFromSource_kept (env : Env) (self : GLSLShaderCommon) :
    Kept self (loadFromSource env self).obj := by
  obtain ⟨src, d, h⟩ := loadFromSource_frame env self
  rw [h]
  exact ⟨⟨rfl, rfl, rfl, rfl, rfl⟩, rfl, rfl⟩

theorem unloadImpl_kept (env : Env) (self : GLSLShaderCommon) :
    Kept self (unloadImpl env self).1 := by
  unfold unloadImpl unloadHighLevel
  by_cases h : self.mHighLevelLoaded = true <;> simp [h, Kept, Ident]

theorem worldLoad_heap (env : Env) (self q : Ptr) (w : World) :
    (World.loadFromSource env self w).1.heap q =
      if q = self then (Ogre.loadFromSource env (w.heap self)).obj else w.heap q := by
  simp [World.loadFromSource, World.store, Function.update_apply]

theorem worldLoad_log (env : Env) (self : Ptr) (w : World) :
    (World.loadFromSource env self w).1.log =
      w.log ++ (Ogre.loadFromSource env (w.heap self)).calls.map (Prod.mk self) := by
  simp [World.loadFromSource]

theorem worldLoad_kept (env : Env) (self : Ptr) (w : World) (q : Ptr) :
    Kept (w.heap q) ((World.loadFromSource env self w).1.heap q) := by
  rw [worldLoad_heap]
  by_cases h : q = self
  · subst h; simpa using loadFromSource_kept env (w.heap q)
  · simpa [h] using kept_refl (w.heap q)

theorem worldLoad_static (env : Env) (self : Ptr) (w : World) :
    (World.loadFromSource env self w).1.registry = w.registry ∧
    (World.loadFromSource env self w).1.mShaderCount = w.mShaderCount := by
  simp [World.loadFromSource, World.store]

theorem loadHighLevel_kept (env : Env) (c : Ptr) (w : World) (q : Ptr) :
    Kept (w.heap q) ((loadHighLevel env c w).heap q) := by
  unfold loadHighLevel
  by_cases hl : (w.heap c).mHighLevelLoaded = true
  · simpa [hl] using kept_refl (w.heap q)
  · simp only [hl, Bool.false_eq_true, if_false]
    have hk := worldLoad_kept env c w q
    cases hout : (World.loadFromSource env c w).2 with
    | error e => simpa using hk
    | ok u =>
      simp only [world_store_heap]
      by_cases hq : q = c
      · subst hq
        simp only [if_true]
        exact ⟨hk.1, hk.2.1, hk.2.2⟩
      · simpa [hq] using hk

theorem loadHighLevel_static (env : Env) (c : Ptr) (w : World) :
    (loadHighLevel env c w).registry = w.registry ∧
    (loadHighLevel env c w).mShaderCount = w.mShaderCount := by
  unfold loadHighLevel
  by_cases hl : (w.heap c).mHighLevelLoaded = true
  · simp [hl]
  · simp only [hl, Bool.false_eq_true, if_false]
    have hs := worldLoad_static env c w
    cases hout : (World.loadFromSource env c w).2 with
    | error e => simpa using hs
    | ok u => simpa [World.store] using hs

/-- The three ways in which `attachChildShader` skips. -/
theorem attachChildShader_skip (env : Env) (self : Ptr) (name : String) (w : World)
    (h : getByName w name = none ∨
      (∃ c, getByName w name = some c ∧ (w.heap c).mSyntaxCode ≠ "glsl") ∨
      env.isSupported (w.heap self) = false) :
    attachChildShader env self name w = (w, .ok ()) := by
  unfold attachChildShader
  rcases h with h | ⟨c, hc, hs⟩ | h
  · simp [h]
  · simp [hc, hs]
  · cases hc : getByName w name with
    | none => simp
    | some c => by_cases hs : (w.heap c).mSyntaxCode = "glsl" <;> simp [hs, h]

/-- What `attachChildShader` does when it attaches. -/
theorem attachChildShader_attach (env : Env) (self : Ptr) (name : String) (w : World)
    (c : Ptr) (hc : getByName w name = some c) (hs : (w.heap c).mSyntaxCode = "glsl")
    (hsup : env.isSupported (w.heap self) = true) :
    attachChildShader env self name w =
      ((loadHighLevel env c w).store self
        { (loadHighLevel env c w).heap self with
          mAttachedGLSLPrograms := ((loadHighLevel env c w).heap self).mAttachedGLSLPrograms ++ [c]
          mAttachedShaderNames :=
            ((loadHighLevel env c w).heap self).mAttachedShaderNames ++ (name ++ " ") },
       .ok ()) := by
  unfold attachChildShader
  simp [hc, hs, hsup]

theorem attachChildShader_cases (env : Env) (self : Ptr) (name : String) (w : World) :
    attachChildShader env self name w = (w, .ok ()) ∨
    ∃ c, getByName w name = some c ∧ (w.heap c).mSyntaxCode = "glsl" ∧
      env.isSupported (w.heap self) = true := by
  cases hc : getByName w name with
  | none => exact Or.inl (attachChildShader_skip env self name w (Or.inl hc))
  | some c =>
    by_cases hs : (w.heap c).mSyntaxCode = "glsl"
    · by_cases hsup : env.isSupported (w.heap self) = true
      · exact Or.inr ⟨c, rfl, hs, hsup⟩
      · exact Or.inl (attachChildShader_skip env self name w
          (Or.inr (Or.inr (by simpa using hsup))))
    · exact Or.inl (attachChildShader_skip env self name w (Or.inr (Or.inl ⟨c, hc, hs⟩)))

theorem attachChildShader_outcome (env : Env) (self : Ptr) (name : String) (w : World) :
    (attachChildShader env self name w).2 = .ok () := by
  rcases attachChildShader_cases env self name w with h | ⟨c, hc, hs, hsup⟩
  · rw [h]
  · rw [attachChildShader_attach env self name w c hc hs hsup]

theorem getByName_name (w : World) (name : String) (c : Ptr) (h : getByName w name = some c) :
    (w.heap c).mName = name := by
  unfold getByName at h
  have := List.find?_some h
  simpa using this

theorem getByName_congr (w1 w2 : World) (h : w1.SameIdentity w2) (name : String) :
    getByName w2 name = getByName w1 name := by
  unfold getByName
  have hf : (fun q => (w2.heap q).mName == name) = (fun q => (w1.heap q).mName == name) :=
    funext (fun q => by rw [(h.2.2 q).1])
  rw [h.1, hf]

theorem loadHighLevel_sameIdentity (env : Env) (c : Ptr) (w : World) :
    w.SameIdentity (loadHighLevel env c w) :=
  ⟨(loadHighLevel_static env c w).1, (loadHighLevel_static env c w).2,
   fun q => (loadHighLevel_kept env c w q).1⟩

theorem attachChildShader_sameIdentity (env : Env) (self : Ptr) (name : String) (w : World) :
    w.SameIdentity (attachChildShader env self name w).1 := by
  rcases attachChildShader_cases env self name w with h | ⟨c, hc, hs, hsup⟩
  · rw [h]; exact sameIdentity_refl w
  · rw [attachChildShader_attach env self name w c hc hs hsup]
    have hi := loadHighLevel_sameIdentity env c w
    refine ⟨hi.1, hi.2.1, fun q => ?_⟩
    simp only [world_store_heap]
    by_cases hq : q = self
    · subst hq
      simpa using hi.2.2 q
    · simpa [hq] using hi.2.2 q

/-- The attachment members of an object other than `self` after `attachChildShader`. -/
theorem attachChildShader_other (env : Env) (self : Ptr) (name : String) (w : World)
    (q : Ptr) (hq : q ≠ self) :
    Kept (w.heap q) ((attachChildShader env self name w).1.heap q) := by
  rcases attachChildShader_cases env self name w with h | ⟨c, hc, hs, hsup⟩
  · rw [h]; exact kept_refl _
  · rw [attachChildShader_attach env self name w c hc hs hsup]
    simpa [world_store_heap, hq] using loadHighLevel_kept env c w q

/-- The attachment members of `self` after an `attachChildShader` that attaches. -/
theorem attachChildShader_self (env : Env) (self : Ptr) (name : String) (w : World)
    (c : Ptr) (hc : getByName w name = some c) (hs : (w.heap c).mSyntaxCode = "glsl")
    (hsup : env.isSupported (w.heap self) = true) :
    ((attachChildShader env self name w).1.heap self).mAttachedGLSLPrograms =
      (w.heap self).mAttachedGLSLPrograms ++ [c] ∧
    ((attachChildShader env self name w).1.heap self).mAttachedShaderNames =
      (w.heap self).mAttachedShaderNames ++ (name ++ " ") := by
  rw [attachChildShader_attach env self name w c hc hs hsup]
  have hk := loadHighLevel_kept env c w self
  simp [world_store_heap, hk.2.1, hk.2.2]

theorem attachChildShader_eq (env : Env) (self : Ptr) (name : String) (w : World) :
    attachChildShader env self name w = ((attachChildShader env self name w).1, .ok ()) := by
  have h := attachChildShader_outcome env self name w
  rcases hr : attachChildShader env self name w with ⟨w1, o⟩
  rw [hr] at h
  simp only at h
  rw [h]

theorem doSet_loop_eq (env : Env) (target : Ptr) (vec : List String) :
    ∀ (todo i : Nat) (w : World), i + todo = vec.length →
      CmdAttach.doSet.loop env target vec i todo w =
        ((vec.drop i).foldl (fun w1 n => (attachChildShader env target n w1).1) w, .ok ()) := by
  intro todo
  induction todo with
  | zero =>
    intro i w h
    have hi : vec.length ≤ i := by omega
    simp [CmdAttach.doSet.loop, List.drop_of_length_le hi]
  | succ k ih =>
    intro i w h
    have hi : i < vec.length := by omega
    rw [List.drop_eq_getElem_cons hi, List.foldl_cons]
    unfold CmdAttach.doSet.loop
    rw [List.getD_eq_getElem vec "" hi, attachChildShader_eq]
    simp only
    exact ih (i + 1) _ (by omega)

theorem foldl_append_init (l : List String) (init : String) :
    l.foldl (fun r t => r ++ t) init = init ++ l.foldl (fun r t => r ++ t) "" := by
  induction l generalizing init with
  | nil => simp
  | cons a l ih =>
    rw [List.foldl_cons, List.foldl_cons, ih, ih ("" ++ a), String.empty_append,
      String.append_assoc]

theorem join_cons (a : String) (l : List String) :
    String.join (a :: l) = a ++ String.join l := by
  unfold String.join
  rw [List.foldl_cons, String.empty_append, foldl_append_init]

theorem join_append_singleton (l : List String) (a : String) :
    String.join (l ++ [a]) = String.join l ++ a := by
  unfold String.join
  rw [List.foldl_append]
  rfl

/-- What a run of `attachChildShader` over a list of names does to the program, when each
name resolves to a "glsl" resource and `isSupported()` answers true at each call, in the
state the program has at that call. -/
theorem attach_fold_grows (env : Env) (target : Ptr) (tokens : List String) :
    ∀ w : World,
      (∀ k, k < tokens.length → env.isSupported
        (((tokens.take k).foldl (fun w1 n => (attachChildShader env target n w1).1) w).heap
          target) = true) →
      (∀ t ∈ tokens, ∃ c, getByName w t = some c ∧ (w.heap c).mSyntaxCode = "glsl") →
      ((tokens.foldl (fun w1 n => (attachChildShader env target n w1).1) w).heap target).mAttachedGLSLPrograms
        = (w.heap target).mAttachedGLSLPrograms ++ tokens.filterMap (getByName w) ∧
      ((tokens.foldl (fun w1 n => (attachChildShader env target n w1).1) w).heap target).mAttachedShaderNames
        = (w.heap target).mAttachedShaderNames ++ String.join (tokens.map (fun t => t ++ " ")) := by
  induction tokens with
  | nil => intro w _ _; simp [String.join]
  | cons t ts ih =>
    intro w hsup hres
    obtain ⟨c, hc, hs⟩ := hres t (List.mem_cons_self t ts)
    have hsup0 : env.isSupported (w.heap target) = true := by
      simpa using hsup 0 (by simp)
    have hself := attachChildShader_self env target t w c hc hs hsup0
    have hid := attachChildShader_sameIdentity env target t w
    have hgb : getByName (attachChildShader env target t w).1 = getByName w :=
      funext (getByName_congr w _ hid)
    have ih1 := ih (attachChildShader env target t w).1
      (fun k hk => by
        have h := hsup (k + 1) (by simpa using hk)
        simpa [List.take_succ_cons, List.foldl_cons] using h)
      (fun u hu => by
        obtain ⟨d, hd, hds⟩ := hres u (List.mem_cons_of_mem t hu)
        exact ⟨d, by rw [hgb]; exact hd, by rw [(hid.2.2 d).2.2.2.1]; exact hds⟩)
    rw [List.foldl_cons, ih1.1, ih1.2, hself.1, hself.2, hgb]
    constructor
    · simp [List.filterMap_cons, hc]
    · rw [List.map_cons, join_cons, String.append_assoc]

theorem world_store_kept (w : World) (p : Ptr) (o : GLSLShaderCommon)
    (h : Kept (w.heap p) o) (q : Ptr) : Kept (w.heap q) ((w.store p o).heap q) := by
  rw [world_store_heap]
  by_cases hq : q = p
  · subst hq; simpa using h
  · simpa [hq] using kept_refl (w.heap q)

theorem worldUnload_kept (env : Env) (self : Ptr) (w : World) (q : Ptr) :
    Kept (w.heap q) ((World.unloadImpl env self w).1.heap q) :=
  world_store_kept w self _ (unloadImpl_kept env (w.heap self)) q

theorem definesDoSet_kept (target : Ptr) (val : String) (w : World) (q : Ptr) :
    Kept (w.heap q) ((CmdPreprocessorDefines.doSet target val w).heap q) :=
  world_store_kept w target (setPreprocessorDefines (w.heap target) val)
    ⟨⟨rfl, rfl, rfl, rfl, rfl⟩, rfl, rfl⟩ q

theorem columnMajorDoSet_kept (env : Env) (target : Ptr) (val : String)
    (w : World) (q : Ptr) :
    Kept (w.heap q) ((CmdColumnMajorMatrices.doSet env target val w).heap q) :=
  world_store_kept w target (setColumnMajorMatrices (w.heap target) (env.parseBool val))
    ⟨⟨rfl, rfl, rfl, rfl, rfl⟩, rfl, rfl⟩ q

theorem attach_fold_sameIdentity (env : Env) (target : Ptr) (tokens : List String) :
    ∀ w : World, w.SameIdentity
      (tokens.foldl (fun w1 n => (attachChildShader env target n w1).1) w) := by
  induction tokens with
  | nil => intro w; exact sameIdentity_refl w
  | cons t ts ih =>
    intro w
    rw [List.foldl_cons]
    exact sameIdentity_trans (attachChildShader_sameIdentity env target t w) (ih _)

theorem doSet_eq_fold (env : Env) (target : Ptr) (shaderNames : String) (w : World) :
    (CmdAttach.doSet env target shaderNames w).1 =
      (env.split shaderNames " \t" 0).foldl
        (fun w1 n => (attachChildShader env target n w1).1) w := by
  unfold CmdAttach.doSet
  simpa using congrArg Prod.fst
    (doSet_loop_eq env target (env.split shaderNames " \t" 0) _ 0 w (by simp))

/-- Every operation keeps the registry, the counter and the identity members. -/
theorem step_sameIdentity {env : Env} {w1 w2 : World} (h : Step env w1 w2) :
    w1.SameIdentity w2 := by
  cases h with
  | attach self name => exact attachChildShader_sameIdentity env self name w1
  | attachSet target names =>
    rw [doSet_eq_fold]
    exact attach_fold_sameIdentity env target _ w1
  | load self =>
    exact ⟨(worldLoad_static env self w1).1, (worldLoad_static env self w1).2,
      fun q => (worldLoad_kept env self w1 q).1⟩
  | unload self =>
    exact ⟨rfl, rfl, fun q => (worldUnload_kept env self w1 q).1⟩
  | setDefines target val =>
    exact ⟨rfl, rfl, fun q => (definesDoSet_kept target val w1 q).1⟩
  | setColumnMajor target val =>
    exact ⟨rfl, rfl, fun q => (columnMajorDoSet_kept env target val w1 q).1⟩

theorem reachable_sameIdentity {env : Env} {w1 w2 : World} (h : Reachable env w1 w2) :
    w1.SameIdentity w2 := by
  induction h with
  | refl => exact sameIdentity_refl w1
  | tail _ hstep ih => exact sameIdentity_trans ih (step_sameIdentity hstep)

theorem namesMatch_of_kept {w1 w2 : World} {p : Ptr} (hid : w1.SameIdentity w2)
    (hk : Kept (w1.heap p) (w2.heap p)) (h : NamesMatchChildren w1 p) :
    NamesMatchChildren w2 p := by
  unfold NamesMatchChildren at h ⊢
  have hf : (fun c => (w2.heap c).mName ++ " ") = (fun c => (w1.heap c).mName ++ " ") :=
    funext (fun c => by rw [(hid.2.2 c).1])
  rw [hk.2.2, hk.2.1, hf]
  exact h

theorem attachChildShader_inv (env : Env) (self : Ptr) (name : String) (w : World) (p : Ptr)
    (h : NamesMatchChildren w p) :
    NamesMatchChildren (attachChildShader env self name w).1 p := by
  have hid := attachChildShader_sameIdentity env self name w
  by_cases hp : p = self
  · subst hp
    rcases attachChildShader_cases env p name w with hskip | ⟨c, hc, hs, hsup⟩
    · rw [hskip]; exact h
    · have hself := attachChildShader_self env p name w c hc hs hsup
      unfold NamesMatchChildren at h ⊢
      have hf : (fun d => ((attachChildShader env p name w).1.heap d).mName ++ " ")
          = (fun d => (w.heap d).mName ++ " ") :=
        funext (fun d => by rw [(hid.2.2 d).1])
      rw [hself.1, hself.2, hf, List.map_append, List.map_singleton, join_append_singleton,
        getByName_name w name c hc, h]
  · exact namesMatch_of_kept hid (attachChildShader_other env self name w p hp) h

theorem attach_fold_inv (env : Env) (target : Ptr) (p : Ptr) (tokens : List String) :
    ∀ w : World, NamesMatchChildren w p → NamesMatchChildren
      (tokens.foldl (fun w1 n => (attachChildShader env target n w1).1) w) p := by
  induction tokens with
  | nil => intro w h; exact h
  | cons t ts ih =>
    intro w h
    rw [List.foldl_cons]
    exact ih _ (attachChildShader_inv env target t w p h)

/-- Every operation keeps the invariant of every object. -/
theorem step_inv {env : Env} {w1 w2 : World} (hstep : Step env w1 w2) (p : Ptr)
    (h : NamesMatchChildren w1 p) : NamesMatchChildren w2 p := by
  have hid := step_sameIdentity hstep
  cases hstep with
  | attach self name => exact attachChildShader_inv env self name w1 p h
  | attachSet target names =>
    rw [doSet_eq_fold]
    exact attach_fold_inv env target p _ w1 h
  | load self => exact namesMatch_of_kept hid (worldLoad_kept env self w1 p) h
  | unload self => exact namesMatch_of_kept hid (worldUnload_kept env self w1 p) h
  | setDefines target val =>
    exact namesMatch_of_kept hid (definesDoSet_kept target val w1 p) h
  | setColumnMajor target val =>
    exact namesMatch_of_kept hid
      (columnMajorDoSet_kept env target val w1 p) h

theorem constructAll_ids (args : List (HighLevelGpuProgram × Nat)) :
    ∀ count : Nat, (constructAll args count).1.map (fun o => o.mShaderID) =
      (List.range args.length).map (fun k => (count + k + 1) % UINT_RANGE) := by
  induction args with
  | nil => intro count; simp [constructAll]
  | cons a rest ih =>
    intro count
    simp only [constructAll, List.map_cons, List.length_cons, List.range_succ_eq_map,
      List.map_map]
    rw [ih]
    simp only [GLSLShaderCommon.construct, Nat.add_zero, List.cons.injEq, true_and]
    apply List.map_congr_left
    intro k _
    simp only [Function.comp, Nat.succ_eq_add_one]
    rw [Nat.add_assoc ((count + 1) % UINT_RANGE), Nat.add_mod, Nat.mod_mod, ← Nat.add_mod]
    congr 1
    omega

theorem assignedIds_eq (args : List (HighLevelGpuProgram × Nat)) :
    assignedIds args = (List.range args.length).map (fun k => (k + 1) % UINT_RANGE) := by
  unfold assignedIds
  rw [constructAll_ids]
  apply List.map_congr_left
  intro k _
  rw [Nat.zero_add]

theorem loadFromSource_ok_calls (env : Env) (self : GLSLShaderCommon) (u : Unit)
    (h : (loadFromSource env self).outcome = .ok u) :
    ∃ defs src out, (loadFromSource env self).calls =
      [Call.resolveIncludes self.mSource self.mFilename, Call.Parse defs src,
       Call.compile true out] := by
  cases hout : engineOutput env self with
  | none =>
    rw [loadFromSource_of_none env self hout] at h
    cases h
  | some out =>
    by_cases h0 : out.utf8ByteSize = 0
    · rw [loadFromSource_of_empty env self out hout h0] at h
      cases h
    · exact ⟨_, _, out, by rw [loadFromSource_of_some env self out hout h0]⟩

theorem loadFromSource_flag (env : Env) (self : GLSLShaderCommon) :
    (loadFromSource env self).obj.mHighLevelLoaded = self.mHighLevelLoaded := by
  obtain ⟨src, d, h⟩ := loadFromSource_frame env self
  rw [h]

theorem loadHighLevel_of_loaded (env : Env) (c : Ptr) (w : World)
    (h : (w.heap c).mHighLevelLoaded = true) : loadHighLevel env c w = w := by
  simp [loadHighLevel, h]

theorem loadHighLevel_log (env : Env) (c : Ptr) (w : World)
    (h0 : (w.heap c).mHighLevelLoaded = false) :
    (loadHighLevel env c w).log =
      w.log ++ (loadFromSource env (w.heap c)).calls.map (Prod.mk c) := by
  unfold loadHighLevel
  simp only [h0, Bool.false_eq_true, if_false]
  cases hout : (World.loadFromSource env c w).2 with
  | error e => exact worldLoad_log env c w
  | ok u =>
    simp only [World.store]
    exact worldLoad_log env c w

theorem loadHighLevel_flag_of_ok (env : Env) (c : Ptr) (w : World) (u : Unit)
    (hok : (loadFromSource env (w.heap c)).outcome = .ok u) :
    ((loadHighLevel env c w).heap c).mHighLevelLoaded = true := by
  unfold loadHighLevel
  by_cases h0 : (w.heap c).mHighLevelLoaded = true
  · simp [h0]
  · have hout : (World.loadFromSource env c w).2 = .ok u := hok
    simp only [h0, Bool.false_eq_true, if_false, hout, world_store_heap, if_true]

theorem loadHighLevel_flag_of_error (env : Env) (c : Ptr) (w : World) (e : Exception)
    (h0 : (w.heap c).mHighLevelLoaded = false)
    (herr : (loadFromSource env (w.heap c)).outcome = .error e) :
    ((loadHighLevel env c w).heap c).mHighLevelLoaded = false := by
  unfold loadHighLevel
  have hout : (World.loadFromSource env c w).2 = .error e := herr
  simp only [h0, Bool.false_eq_true, if_false, hout, worldLoad_heap, if_true]
  rw [loadFromSource_flag, h0]

/-- The load flag of the child after an `attachChildShader` that attaches is the flag
that `loadHighLevel` left. -/
theorem attachChildShader_child_flag (env : Env) (self : Ptr) (name : String) (w : World)
    (c : Ptr) (hc : getByName w name = some c) (hs : (w.heap c).mSyntaxCode = "glsl")
    (hsup : env.isSupported (w.heap self) = true) :
    ((attachChildShader env self name w).1.heap c).mHighLevelLoaded =
      ((loadHighLevel env c w).heap c).mHighLevelLoaded := by
  rw [attachChildShader_attach env self name w c hc hs hsup]
  simp only [world_store_heap]
  by_cases hcs : c = self
  · subst hcs; simp
  · simp [hcs]

theorem attachChildShader_log (env : Env) (self : Ptr) (name : String) (w : World)
    (c : Ptr) (hc : getByName w name = some c) (hs : (w.heap c).mSyntaxCode = "glsl")
    (hsup : env.isSupported (w.heap self) = true) :
    (attachChildShader env self name w).1.log = (loadHighLevel env c w).log := by
  rw [attachChildShader_attach env self name w c hc hs hsup]
  rfl

/-- Every run of `loadFromSource` calls `Parse` once. -/
theorem parseRuns_load (env : Env) (c : Ptr) (o : GLSLShaderCommon) :
    parseRuns c ((loadFromSource env o).calls.map (Prod.mk c)) = 1 := by
  cases hout : engineOutput env o with
  | none =>
    rw [loadFromSource_of_none env o hout]
    simp [parseRuns, List.countP_cons]
  | some out =>
    by_cases h0 : out.utf8ByteSize = 0
    · rw [loadFromSource_of_empty env o out hout h0]
      simp [parseRuns, List.countP_cons]
    · rw [loadFromSource_of_some env o out hout h0]
      simp [parseRuns, List.countP_cons]

/-- A run of `loadFromSource` that returns normally has called `compile` once. -/
theorem compileRuns_load_ok (env : Env) (c : Ptr) (o : GLSLShaderCommon) (u : Unit)
    (hok : (loadFromSource env o).outcome = .ok u) :
    compileRuns c ((loadFromSource env o).calls.map (Prod.mk c)) = 1 := by
  obtain ⟨defs, src, out, hcalls⟩ := loadFromSource_ok_calls env o u hok
  rw [hcalls]
  simp [compileRuns, List.countP_cons]

theorem parseRuns_append (p : Ptr) (l1 l2 : List (Ptr × Call)) :
    parseRuns p (l1 ++ l2) = parseRuns p l1 + parseRuns p l2 := by
  simp [parseRuns, List.countP_append]

theorem compileRuns_append (p : Ptr) (l1 l2 : List (Ptr × Call)) :
    compileRuns p (l1 ++ l2) = compileRuns p l1 + compileRuns p l2 := by
  simp [compileRuns, List.countP_append]

/-! ## Child-shader attachment -/

/-- C5: when the registry has no resource of the name, or the resource found has a
syntax code other than "glsl", or `isSupported()` is false, `attachChildShader` returns
normally and leaves the whole world as it was: the attachment members, the child and the
log of load calls. When the name is found, is "glsl" and the program is supported, it
returns normally and appends exactly one entry, the child, to `mAttachedGLSLPrograms`. -/
theorem C5_attach_skip_or_append (env : Env) (self : Ptr) (name : String) (w : World) :
    ((getByName w name = none ∨
      (∃ c, getByName w name = some c ∧ (w.heap c).mSyntaxCode ≠ "glsl") ∨
      env.isSupported (w.heap self) = false) →
        attachChildShader env self name w = (w, .ok ())) ∧
    (∀ c, getByName w name = some c → (w.heap c).mSyntaxCode = "glsl" →
      env.isSupported (w.heap self) = true →
        (attachChildShader env self name w).2 = .ok () ∧
        ((attachChildShader env self name w).1.heap self).mAttachedGLSLPrograms =
          (w.heap self).mAttachedGLSLPrograms ++ [c]) := by
  refine ⟨attachChildShader_skip env self name w, ?_⟩
  intro c hc hs hsup
  refine ⟨attachChildShader_outcome env self name w, ?_⟩
  rw [attachChildShader_attach env self name w c hc hs hsup]
  have hk := loadHighLevel_kept env c w self
  simp [world_store_heap, hk.2.1]

/-- C5, run on the example heap: attaching the unknown name "Z" or the "hlsl" program
"C" changes nothing, attaching "A" appends its pointer. -/
theorem C5_attach_skip_or_append_witness :
    attachChildShader (exampleEnv "" some) 0 "Z" exampleWorld = (exampleWorld, .ok ()) ∧
    attachChildShader (exampleEnv "" some) 0 "C" exampleWorld = (exampleWorld, .ok ()) ∧
    ((attachChildShader (exampleEnv "" some) 0 "A" exampleWorld).1.heap 0).mAttachedGLSLPrograms
      = [1] :=
  ⟨(C5_attach_skip_or_append (exampleEnv "" some) 0 "Z" exampleWorld).1 (Or.inl (by decide)),
   (C5_attach_skip_or_append (exampleEnv "" some) 0 "C" exampleWorld).1
     (Or.inr (Or.inl ⟨3, by decide, by decide⟩)),
   ((C5_attach_skip_or_append (exampleEnv "" some) 0 "A" exampleWorld).2 1
     (by decide) (by decide) (by decide)).2⟩

/-- C6: in every world reached from one in which the object at `p` has just been
constructed, by any sequence of `attachChildShader`, `CmdAttach::doSet`,
`loadFromSource`, `unloadImpl` calls (and of the two other property setters) on any
objects, `mAttachedShaderNames` of `p` is the concatenation, in order, of the name of
each entry of `mAttachedGLSLPrograms` followed by one space. -/
theorem C6_names_match_children (env : Env) (base : HighLevelGpuProgram) (derived : Nat)
    (p : Ptr) (w0 w : World) (h : Reachable env (World.construct base derived p w0) w) :
    (w.heap p).mAttachedShaderNames =
      String.join ((w.heap p).mAttachedGLSLPrograms.map (fun c => (w.heap c).mName ++ " ")) := by
  have h0 : NamesMatchChildren (World.construct base derived p w0) p := by
    simp [NamesMatchChildren, World.construct, World.store, GLSLShaderCommon.construct,
      String.join]
  have key : ∀ w1, Reachable env (World.construct base derived p w0) w1 →
      NamesMatchChildren w1 p := by
    intro w1 hr
    induction hr with
    | refl => exact h0
    | tail _ hstep ih => exact step_inv hstep p ih
  exact key w h

/-- C6, run on the example heap after "P" is constructed at 0 and "A B", then "A", are
set: the names of "P" are the names of its children A, B, A, each followed by a space. -/
theorem C6_names_match_children_witness :
    Reachable (exampleEnv "" some)
      (World.construct (exampleBase "P" "glsl") 0 0 exampleWorld) exampleRun ∧
    (exampleRun.heap 0).mAttachedShaderNames =
      String.join ((exampleRun.heap 0).mAttachedGLSLPrograms.map
        (fun c => (exampleRun.heap c).mName ++ " ")) :=
  ⟨(Relation.ReflTransGen.single (Step.attachSet 0 "A B" _)).tail (Step.attachSet 0 "A" _),
   C6_names_match_children (exampleEnv "" some) (exampleBase "P" "glsl") 0 0 exampleWorld
    exampleRun
    ((Relation.ReflTransGen.single (Step.attachSet 0 "A B" _)).tail (Step.attachSet 0 "A" _))⟩

/-- C7: `CmdAttach::doSet` returns normally and leaves the world that calling
`attachChildShader` once per token of `split(shaderNames, " \t", 0)`, from left to
right, leaves. So when every token resolves to a "glsl" resource and the program is
supported (`isSupported()` answers true at each of those calls, in the state the program
has then), `mAttachedGLSLPrograms` grows by the resolved children in token order and
`mAttachedShaderNames` by each token followed by a space. -/
theorem C7_doSet_attaches_each_token (env : Env) (target : Ptr) (shaderNames : String)
    (w : World) :
    CmdAttach.doSet env target shaderNames w =
      ((env.split shaderNames " \t" 0).foldl
        (fun w1 n => (attachChildShader env target n w1).1) w, .ok ()) ∧
    ((∀ k, k < (env.split shaderNames " \t" 0).length → env.isSupported
        ((((env.split shaderNames " \t" 0).take k).foldl
          (fun w1 n => (attachChildShader env target n w1).1) w).heap target) = true) →
      (∀ t ∈ env.split shaderNames " \t" 0,
        ∃ c, getByName w t = some c ∧ (w.heap c).mSyntaxCode = "glsl") →
      ((CmdAttach.doSet env target shaderNames w).1.heap target).mAttachedGLSLPrograms =
        (w.heap target).mAttachedGLSLPrograms ++
          (env.split shaderNames " \t" 0).filterMap (getByName w) ∧
      ((CmdAttach.doSet env target shaderNames w).1.heap target).mAttachedShaderNames =
        (w.heap target).mAttachedShaderNames ++
          String.join ((env.split shaderNames " \t" 0).map (fun t => t ++ " "))) := by
  have heq : CmdAttach.doSet env target shaderNames w =
      ((env.split shaderNames " \t" 0).foldl
        (fun w1 n => (attachChildShader env target n w1).1) w, .ok ()) := by
    unfold CmdAttach.doSet
    simpa using doSet_loop_eq env target (env.split shaderNames " \t" 0) _ 0 w (by simp)
  refine ⟨heq, ?_⟩
  intro hsup hres
  rw [heq]
  exact attach_fold_grows env target _ w hsup hres

/-- C7, run on the example heap with an `isSupported()` that reads the state of the
program (its syntax code): setting "A B" on the fresh program "P" leaves the names
"A B " and the children A, B, in that order. -/
theorem C7_doSet_attaches_each_token_witness :
    ((CmdAttach.doSet stateReadingEnv 0 "A B" exampleWorld).1.heap 0).mAttachedGLSLPrograms
      = [1, 2] ∧
    ((CmdAttach.doSet stateReadingEnv 0 "A B" exampleWorld).1.heap 0).mAttachedShaderNames
      = "A B " :=
  (C7_doSet_attaches_each_token stateReadingEnv 0 "A B" exampleWorld).2
    (by decide) (by decide)

/-- C8 as stated fails: when the engine answers null for the child "A", the child is
found, is "glsl" and the program is supported at both calls, yet the child is still not
loaded after the first `attachChildShader("A")`, and the second call runs its pipeline
again: `Parse` of the child has run twice. With an engine that succeeds and a `compile`
that ends with an exception, `compile` of the child has run twice. -/
theorem C8_counterexample :
    getByName exampleWorld "A" = some 1 ∧
    (exampleWorld.heap 1).mSyntaxCode = "glsl" ∧
    (exampleEnv "" (fun _ => none)).isSupported (exampleWorld.heap 0) = true ∧
    (exampleEnv "" (fun _ => none)).isSupported
      ((attachChildShader (exampleEnv "" (fun _ => none)) 0 "A" exampleWorld).1.heap 0) = true ∧
    ((attachChildShader (exampleEnv "" (fun _ => none)) 0 "A" exampleWorld).1.heap 1).mHighLevelLoaded
      = false ∧
    parseRuns 1 exampleWorld.log = 0 ∧
    parseRuns 1 (attachChildShader (exampleEnv "" (fun _ => none)) 0 "A"
      (attachChildShader (exampleEnv "" (fun _ => none)) 0 "A" exampleWorld).1).1.log = 2 ∧
    compileRuns 1 (attachChildShader throwingEnv 0 "A"
      (attachChildShader throwingEnv 0 "A" exampleWorld).1).1.log = 2 := by
  refine ⟨by decide, by decide, by decide, by decide, by decide, by decide, by decide,
    by decide⟩

/-- C8, amended: for a program supported at both calls and a name that resolves to a
"glsl" child, two calls of `attachChildShader(name)` append the child twice to
`mAttachedGLSLPrograms` (no deduplication) and `name + " "` twice to
`mAttachedShaderNames`. When the child is already loaded, or its load returns normally,
the child is loaded after the first call, the second call makes no collaborator call at
all, and over both calls the child's `Parse` and `compile` each run once if the child was
not loaded before and not at all if it was. When the child is not loaded and its load
fails, it is still not loaded after the first call and `Parse` runs twice. -/
theorem C8_attach_twice (env : Env) (self : Ptr) (name : String) (w : World) (c : Ptr)
    (hc : getByName w name = some c) (hs : (w.heap c).mSyntaxCode = "glsl")
    (hsup1 : env.isSupported (w.heap self) = true)
    (hsup2 : env.isSupported ((attachChildShader env self name w).1.heap self) = true) :
    ((attachChildShader env self name (attachChildShader env self name w).1).1.heap self).mAttachedGLSLPrograms
      = (w.heap self).mAttachedGLSLPrograms ++ [c, c] ∧
    ((attachChildShader env self name (attachChildShader env self name w).1).1.heap self).mAttachedShaderNames
      = (w.heap self).mAttachedShaderNames ++ (name ++ " ") ++ (name ++ " ") ∧
    (((w.heap c).mHighLevelLoaded = true ∨ (loadFromSource env (w.heap c)).outcome = .ok ()) →
      ((attachChildShader env self name w).1.heap c).mHighLevelLoaded = true ∧
      (attachChildShader env self name (attachChildShader env self name w).1).1.log
        = (attachChildShader env self name w).1.log ∧
      parseRuns c (attachChildShader env self name (attachChildShader env self name w).1).1.log
        = parseRuns c w.log + (if (w.heap c).mHighLevelLoaded = true then 0 else 1) ∧
      compileRuns c (attachChildShader env self name (attachChildShader env self name w).1).1.log
        = compileRuns c w.log + (if (w.heap c).mHighLevelLoaded = true then 0 else 1)) ∧
    ((w.heap c).mHighLevelLoaded = false →
      (∃ e, (loadFromSource env (w.heap c)).outcome = .error e) →
      ((attachChildShader env self name w).1.heap c).mHighLevelLoaded = false ∧
      parseRuns c (attachChildShader env self name (attachChildShader env self name w).1).1.log
        = parseRuns c w.log + 2) := by
  have hid := attachChildShader_sameIdentity env self name w
  have hc2 : getByName (attachChildShader env self name w).1 name = some c := by
    rw [getByName_congr w _ hid]; exact hc
  have hs2 : ((attachChildShader env self name w).1.heap c).mSyntaxCode = "glsl" := by
    rw [(hid.2.2 c).2.2.2.1]; exact hs
  have hfirst := attachChildShader_self env self name w c hc hs hsup1
  have hsecond := attachChildShader_self env self name _ c hc2 hs2 hsup2
  have hflag := attachChildShader_child_flag env self name w c hc hs hsup1
  have hlog1 := attachChildShader_log env self name w c hc hs hsup1
  have hlog2 := attachChildShader_log env self name _ c hc2 hs2 hsup2
  refine ⟨?_, ?_, ?_, ?_⟩
  · rw [hsecond.1, hfirst.1]; simp
  · rw [hsecond.2, hfirst.2]
  · intro hload
    -- the child is loaded after the first call
    have hloaded : ((attachChildShader env self name w).1.heap c).mHighLevelLoaded = true := by
      rw [hflag]
      rcases hload with h | h
      · rw [loadHighLevel_of_loaded env c w h]; exact h
      · exact loadHighLevel_flag_of_ok env c w () h
    -- so the second call adds nothing to the log
    have hsame : (attachChildShader env self name (attachChildShader env self name w).1).1.log
        = (attachChildShader env self name w).1.log := by
      rw [hlog2, loadHighLevel_of_loaded env c _ hloaded]
    refine ⟨hloaded, hsame, ?_, ?_⟩
    · rw [hsame, hlog1]
      by_cases h0 : (w.heap c).mHighLevelLoaded = true
      · rw [loadHighLevel_of_loaded env c w h0]; simp [h0]
      · have h0f : (w.heap c).mHighLevelLoaded = false := by simpa using h0
        rw [loadHighLevel_log env c w h0f, parseRuns_append, parseRuns_load]
        simp [h0]
    · rw [hsame, hlog1]
      by_cases h0 : (w.heap c).mHighLevelLoaded = true
      · rw [loadHighLevel_of_loaded env c w h0]; simp [h0]
      · have h0f : (w.heap c).mHighLevelLoaded = false := by simpa using h0
        have hok : (loadFromSource env (w.heap c)).outcome = .ok () := by
          rcases hload with h | h
          · exact absurd h h0
          · exact h
        rw [loadHighLevel_log env c w h0f, compileRuns_append,
          compileRuns_load_ok env c _ () hok]
        simp [h0]
  · intro h0 herr
    obtain ⟨e, he⟩ := herr
    have hnot : ((attachChildShader env self name w).1.heap c).mHighLevelLoaded = false := by
      rw [hflag]; exact loadHighLevel_flag_of_error env c w e h0 he
    refine ⟨hnot, ?_⟩
    rw [hlog2, loadHighLevel_log env c _ hnot, parseRuns_append, parseRuns_load, hlog1,
      loadHighLevel_log env c w h0, parseRuns_append, parseRuns_load]

/-- C8 amended, run on the example heap. With an engine that succeeds, attaching "A"
twice to "P" leaves the children A, A, the names "A A ", and one `Parse` and one `compile`
of A in the log; with an engine that answers zero-length output, `Parse` of A runs twice. -/
theorem C8_attach_twice_witness :
    ((attachChildShader (exampleEnv "" some) 0 "A"
        (attachChildShader (exampleEnv "" some) 0 "A" exampleWorld).1).1.heap 0).mAttachedGLSLPrograms
      = [1, 1] ∧
    ((attachChildShader (exampleEnv "" some) 0 "A"
        (attachChildShader (exampleEnv "" some) 0 "A" exampleWorld).1).1.heap 0).mAttachedShaderNames
      = "A A " ∧
    parseRuns 1 (attachChildShader (exampleEnv "" some) 0 "A"
        (attachChildShader (exampleEnv "" some) 0 "A" exampleWorld).1).1.log = 1 ∧
    compileRuns 1 (attachChildShader (exampleEnv "" some) 0 "A"
        (attachChildShader (exampleEnv "" some) 0 "A" exampleWorld).1).1.log = 1 ∧
    parseRuns 1 (attachChildShader (exampleEnv "" (fun _ => some "")) 0 "A"
        (attachChildShader (exampleEnv "" (fun _ => some "")) 0 "A" exampleWorld).1).1.log = 2 :=
  have h := C8_attach_twice (exampleEnv "" some) 0 "A" exampleWorld 1
    (by decide) (by decide) (by decide) (by decide)
  have hf := C8_attach_twice (exampleEnv "" (fun _ => some "")) 0 "A" exampleWorld 1
    (by decide) (by decide) (by decide) (by decide)
  ⟨h.1, h.2.1, (h.2.2.1 (Or.inr rfl)).2.2.1, (h.2.2.1 (Or.inr rfl)).2.2.2,
   (hf.2.2.2 (by decide) ⟨_, rfl⟩).2⟩

/-! ## The shader counter -/

/-- C9 as stated fails: `mShaderCount` is a 32-bit `uint`, so in a sequence of 2^32 + 1
constructions the first and the last resource are both given the id 1, and the ids are
neither pairwise distinct nor strictly increasing. -/
theorem C9_counterexample :
    (assignedIds (List.replicate (UINT_RANGE + 1) (exampleBase "P" "glsl", 0)))[0]? = some 1 ∧
    (assignedIds (List.replicate (UINT_RANGE + 1) (exampleBase "P" "glsl", 0)))[UINT_RANGE]?
      = some 1 ∧
    ¬ (assignedIds (List.replicate (UINT_RANGE + 1) (exampleBase "P" "glsl", 0))).Nodup ∧
    ¬ (assignedIds (List.replicate (UINT_RANGE + 1) (exampleBase "P" "glsl", 0))).Pairwise
        (fun a b => a < b) := by
  have hlen : (List.replicate (UINT_RANGE + 1) (exampleBase "P" "glsl", (0 : Nat))).length
      = UINT_RANGE + 1 := List.length_replicate _ _
  have hpos : 0 < UINT_RANGE := by decide
  have h0 : (assignedIds (List.replicate (UINT_RANGE + 1) (exampleBase "P" "glsl", 0)))[0]?
      = some 1 := by
    rw [assignedIds_eq, hlen, List.getElem?_map, List.getElem?_range (by omega)]
    decide
  have h1 : (assignedIds (List.replicate (UINT_RANGE + 1) (exampleBase "P" "glsl", 0)))[UINT_RANGE]?
      = some 1 := by
    rw [assignedIds_eq, hlen, List.getElem?_map, List.getElem?_range (by omega)]
    decide
  have hnd : ¬ (assignedIds (List.replicate (UINT_RANGE + 1) (exampleBase "P" "glsl", 0))).Nodup := by
    intro hn
    have hl : (assignedIds (List.replicate (UINT_RANGE + 1) (exampleBase "P" "glsl", 0))).length
        = UINT_RANGE + 1 := by
      rw [assignedIds_eq, List.length_map, List.length_range, hlen]
    exact (List.nodup_iff_getElem?_ne_getElem?.1 hn) 0 UINT_RANGE hpos (by omega) (h0.trans h1.symm)
  exact ⟨h0, h1, hnd, fun hp => hnd (hp.imp (fun h => Nat.ne_of_lt h))⟩

/-- C9, amended: in a sequence of fewer than 2^32 constructions that starts with the
counter at 0, the ids assigned are 1, 2, ..., n in construction order, so strictly
increasing and pairwise distinct; each constructor call assigns the pre-incremented
counter, taken modulo 2^32; and no later operation (load, attach, unload, property set)
changes the `mShaderID` of any object or the counter. -/
theorem C9_shader_ids (args : List (HighLevelGpuProgram × Nat))
    (hlen : args.length < UINT_RANGE) :
    assignedIds args = (List.range args.length).map (fun k => k + 1) ∧
    (assignedIds args).Pairwise (fun a b => a < b) ∧
    (assignedIds args).Nodup ∧
    (∀ base derived count,
      (GLSLShaderCommon.construct base derived count).1.mShaderID = (count + 1) % UINT_RANGE ∧
      (GLSLShaderCommon.construct base derived count).2 = (count + 1) % UINT_RANGE) ∧
    (∀ env w1 w2, Reachable env w1 w2 →
      w2.mShaderCount = w1.mShaderCount ∧ ∀ q, (w2.heap q).mShaderID = (w1.heap q).mShaderID) := by
  have hids : assignedIds args = (List.range args.length).map (fun k => k + 1) := by
    rw [assignedIds_eq]
    apply List.map_congr_left
    intro k hk
    have hk1 : k < args.length := List.mem_range.1 hk
    exact Nat.mod_eq_of_lt (by omega)
  have hpw : (assignedIds args).Pairwise (fun a b => a < b) := by
    rw [hids, List.pairwise_map]
    exact (List.pairwise_lt_range args.length).imp (fun h => Nat.add_lt_add_right h 1)
  refine ⟨hids, hpw, hpw.imp (fun h => Nat.ne_of_lt h), fun _ _ _ => ⟨rfl, rfl⟩, ?_⟩
  intro env w1 w2 hr
  have hid := reachable_sameIdentity hr
  exact ⟨hid.2.1, fun q => (hid.2.2 q).2.2.2.2⟩

/-- C9 amended, run on three constructions: the ids are 1, 2, 3. -/
theorem C9_shader_ids_witness :
    assignedIds [(exampleBase "P" "glsl", 0), (exampleBase "A" "glsl", 0),
      (exampleBase "B" "glsl", 0)] = [1, 2, 3] :=
  (C9_shader_ids [(exampleBase "P" "glsl", 0), (exampleBase "A" "glsl", 0),
    (exampleBase "B" "glsl", 0)] (by decide)).1

/-! ## Unload -/

/-- C10: `unloadImpl` never fails, leaves `mAssemblerProgram` empty, is idempotent (run
twice it leaves the state that one run leaves) and keeps `mName`, `mFilename`,
`mLoadFromFile` and `mShaderID`. -/
theorem C10_unloadImpl_idempotent (env : Env) (self : GLSLShaderCommon) :
    (unloadImpl env self).2 = .ok () ∧
    (unloadImpl env self).1.mAssemblerProgram = none ∧
    unloadImpl env (unloadImpl env self).1 = unloadImpl env self ∧
    (unloadImpl env self).1.mName = self.mName ∧
    (unloadImpl env self).1.mFilename = self.mFilename ∧
    (unloadImpl env self).1.mLoadFromFile = self.mLoadFromFile ∧
    (unloadImpl env self).1.mShaderID = self.mShaderID := by
  unfold unloadImpl unloadHighLevel
  by_cases h : self.mHighLevelLoaded = true <;> simp [h]

end Ogre
